import Mathlib

/-!
Verification of the FinancePy cap/floor pricing module
(`financepy/products/libor/FinLiborCapFloor.py`).

The module is embedded shallowly: Python floats become `ℚ`, dates become
`ℤ` (a day index, so that `d2 - d1` is the day count used for the time to
expiry), exceptions become `Except FinError`, and the in-place mutation of
the instrument object becomes explicit state passing (a method that can
raise returns the state as mutated up to the point of the raise, paired
with the `Except` result, which is what a Python caller observes after
catching the exception).

The external collaborators (schedule generator, day-count service, rate
curve, `np.log`, `np.sqrt`, the normal CDF `N` and the SABR-to-Black
volatility conversion) live outside this module; they are modelled from
the spec as abstract function fields of a `FinEnv` record.
-/

namespace FinancePy

/-- A calendar date, modelled as an integer day index; `FinDate`
subtraction in the source yields the number of days between two dates. -/
abbrev FinDate := Int

/-- `Modelled from the spec:` the enumeration of day-count conventions
(external `FinDayCountTypes`); only membership matters here. -/
inductive FinDayCountTypes where
  | THIRTY_E_360_ISDA
  | ACT_360
  | ACT_365F
deriving DecidableEq, Repr

/-- `Modelled from the spec:` the enumeration of payment frequencies
(external `FinFrequencyTypes`). -/
inductive FinFrequencyTypes where
  | ANNUAL
  | SEMI_ANNUAL
  | QUARTERLY
  | MONTHLY
deriving DecidableEq, Repr

/-- `Modelled from the spec:` the enumeration of holiday calendars
(external `FinCalendarTypes`). -/
inductive FinCalendarTypes where
  | NONE
  | WEEKEND
  | TARGET
deriving DecidableEq, Repr

/-- `Modelled from the spec:` the enumeration of business-day adjustment
rules (external `FinBusDayAdjustTypes`). -/
inductive FinBusDayAdjustTypes where
  | NONE
  | FOLLOWING
  | MODIFIED_FOLLOWING
deriving DecidableEq, Repr

/-- `Modelled from the spec:` the enumeration of schedule generation
directions (external `FinDateGenRuleTypes`). -/
inductive FinDateGenRuleTypes where
  | FORWARD
  | BACKWARD
deriving DecidableEq, Repr

/-- Cap/floor option type (source lines 29-31). -/
inductive FinLiborCapFloorType where
  | CAP
  | FLOOR
deriving DecidableEq, Repr

/-- The volatility model passed to `value`.  The source dispatches on the
runtime class of the model object (`FinLiborModelBlack`,
`FinLiborModelShiftedBlack`, `FinLiborModelSABR`, anything else raises);
`other` stands for an arbitrary unrecognized model object. -/
inductive FinLiborModel where
  | black (volatility : ℚ)
  | shiftedBlack (volatility : ℚ) (shift : ℚ)
  | sabr (alpha : ℚ) (beta : ℚ) (rho : ℚ) (nu : ℚ)
  | other
deriving DecidableEq, Repr

/-- The errors the module raises (`ValueError` / `FinError` in the
source), one constructor per distinct raise message:
`startGTMaturity` = "Start date must be before maturity date" (line 80),
`strikeNegative` = "Strike < 0.0" (line 148),
`tooFewOptions` = "Number of options in capfloor equals 1" (line 151),
`volMustBePositive` = "Black Volatility must be positive"
(lines 251 and 273, same message in both branches),
`fwdMustBePositive` = "Forward must be positive in lognormal model."
(line 257),
`unknownModelType` = "Unknown model type ..." (line 301). -/
inductive FinError where
  | startGTMaturity
  | strikeNegative
  | tooFewOptions
  | volMustBePositive
  | fwdMustBePositive
  | unknownModelType
deriving DecidableEq, Repr

/-- `Modelled from the spec:` the external collaborators consumed by this
module, as given in spec sections 2 and 6: the schedule generator (ordered
period boundary dates), the day-count service (year fractions), the rate
curve (discount factors and forward rates), the date-tenor arithmetic and
business-day adjustment, the SABR-to-Black conversion, and the numerical
functions `np.log`, `np.sqrt` and the standard normal CDF `N` from
`FinMath`. -/
structure FinEnv where
  schedGen : FinDate → FinDate → FinFrequencyTypes → FinCalendarTypes →
      FinBusDayAdjustTypes → FinDateGenRuleTypes → List FinDate
  yearFrac : FinDayCountTypes → FinDate → FinDate → ℚ
  df : FinDate → ℚ
  fwdRate : FinDate → FinDate → FinDayCountTypes → ℚ
  normCdf : ℚ → ℚ
  log : ℚ → ℚ
  sqrt : ℚ → ℚ
  blackVolFromSABR : ℚ → ℚ → ℚ → ℚ → ℚ → ℚ → ℚ → ℚ
  addTenor : FinDate → String → FinDate
  adjust : FinCalendarTypes → FinBusDayAdjustTypes → FinDate → FinDate

/-- `Modelled from the spec:` the fixed year-length constant
`gDaysInYear` (external `FinGlobalVariables`) used for the pricer's time
to expiry; spec section 4.3 calls it "a fixed year-length constant". -/
def gDaysInYear : ℚ := 365

/-- The literal `1e-10` used by the source for the zero-strike and
zero-volatility substitutions (lines 244 and 254). -/
def epsTiny : ℚ := 1 / 10000000000

/-- The default notional `ONE_MILLION` (external `FinMath`). -/
def ONE_MILLION : ℚ := 1000000

/-- The state of a `FinLiborCapFloor` instance: the immutable terms set
by the constructor (source lines 108-116) followed by the mutable result
series, the stored valuation date and the cached schedule dates
(lines 118-125, 134, 136). -/
structure FinLiborCapFloor where
  startDate : FinDate
  maturityDate : FinDate
  optionType : FinLiborCapFloorType
  strikeRate : ℚ
  lastFixing : Option ℚ
  frequencyType : FinFrequencyTypes
  dayCountType : FinDayCountTypes
  notional : ℚ
  calendarType : FinCalendarTypes
  busDayAdjustType : FinBusDayAdjustTypes
  dateGenRuleType : FinDateGenRuleTypes
  capFloorLetValues : List ℚ
  capFloorLetAlphas : List ℚ
  capFloorLetFwdRates : List ℚ
  capFloorLetIntrinsic : List ℚ
  capFloorLetDiscountFactors : List ℚ
  capFloorPV : List ℚ
  valuationDate : Option FinDate
  capFloorDates : List FinDate
deriving DecidableEq, Repr

/-- Resolution of the `maturityDateOrTenor` argument (source lines
71-77): a `FinDate` is taken as is; a tenor string is added to the start
date and the result adjusted by the calendar's business-day rule. -/
def resolveMaturity (env : FinEnv) (startDate : FinDate)
    (maturityDateOrTenor : FinDate ⊕ String)
    (calendarType : FinCalendarTypes)
    (busDayAdjustType : FinBusDayAdjustTypes) : FinDate :=
  match maturityDateOrTenor with
  | Sum.inl d => d
  | Sum.inr tenor => env.adjust calendarType busDayAdjustType
      (env.addTenor startDate tenor)

/-- The constructor `FinLiborCapFloor.__init__` (source lines 44-125).
The Python type and enum-membership checks (lines 57-67, 82-106) are
made unrepresentable by the typed embedding; the remaining runtime check
is `startDate > maturityDate` (line 79).  On success every immutable term
is stored, all six result series start empty and the valuation date is
unset. -/
def init (env : FinEnv) (startDate : FinDate)
    (maturityDateOrTenor : FinDate ⊕ String)
    (optionType : FinLiborCapFloorType) (strikeRate : ℚ)
    (lastFixing : Option ℚ) (frequencyType : FinFrequencyTypes)
    (dayCountType : FinDayCountTypes) (notional : ℚ)
    (calendarType : FinCalendarTypes)
    (busDayAdjustType : FinBusDayAdjustTypes)
    (dateGenRuleType : FinDateGenRuleTypes) :
    Except FinError FinLiborCapFloor :=
  let maturityDate := resolveMaturity env startDate maturityDateOrTenor
      calendarType busDayAdjustType
  if startDate > maturityDate then
    Except.error FinError.startGTMaturity
  else
    Except.ok
      { startDate := startDate
        maturityDate := maturityDate
        optionType := optionType
        strikeRate := strikeRate
        lastFixing := lastFixing
        frequencyType := frequencyType
        dayCountType := dayCountType
        notional := notional
        calendarType := calendarType
        busDayAdjustType := busDayAdjustType
        dateGenRuleType := dateGenRuleType
        capFloorLetValues := []
        capFloorLetAlphas := []
        capFloorLetFwdRates := []
        capFloorLetIntrinsic := []
        capFloorLetDiscountFactors := []
        capFloorPV := []
        valuationDate := none
        capFloorDates := [] }

/-- The caplet/floorlet pricer `valueCapletFloorLet` (source lines
231-303): discount factor at the period end, time to expiry measured to
the period start in days over `gDaysInYear`, curve forward rate over the
period, strike with the zero-strike substitution, then dispatch on the
model's runtime class; anything other than the three known model classes
raises. -/
def FinLiborCapFloor.valueCapletFloorLet (self : FinLiborCapFloor)
    (env : FinEnv) (valuationDate startDate endDate : FinDate)
    (model : FinLiborModel) : Except FinError ℚ :=
  let df := env.df endDate
  let t : ℚ := ((startDate - valuationDate : ℤ) : ℚ) / gDaysInYear
  let f := env.fwdRate startDate endDate self.dayCountType
  let k0 := self.strikeRate
  let k := if k0 = 0 then epsTiny else k0
  match model with
  | FinLiborModel.black v =>
      if v < 0 then Except.error FinError.volMustBePositive
      else
        let v := if v = 0 then epsTiny else v
        if f ≤ 0 then Except.error FinError.fwdMustBePositive
        else
          let d1 := (env.log (f / k) + v * v * t / 2) / v / env.sqrt t
          let d2 := d1 - v * env.sqrt t
          match self.optionType with
          | FinLiborCapFloorType.CAP =>
              Except.ok (df * (f * env.normCdf d1 - k * env.normCdf d2))
          | FinLiborCapFloorType.FLOOR =>
              Except.ok (df * (k * env.normCdf (-d2) - f * env.normCdf (-d1)))
  | FinLiborModel.shiftedBlack v h =>
      if v ≤ 0 then Except.error FinError.volMustBePositive
      else
        let d1 := (env.log ((f - h) / (k - h)) + v * v * t / 2) / v /
            env.sqrt t
        let d2 := d1 - v * env.sqrt t
        match self.optionType with
        | FinLiborCapFloorType.CAP =>
            Except.ok (df * ((f - h) * env.normCdf d1 -
              (k - h) * env.normCdf d2))
        | FinLiborCapFloorType.FLOOR =>
            Except.ok (df * ((k - h) * env.normCdf (-d2) -
              (f - h) * env.normCdf (-d1)))
  | FinLiborModel.sabr alpha beta rho nu =>
      let v := env.blackVolFromSABR alpha beta rho nu f k t
      let d1 := (env.log (f / k) + v * v * t / 2) / v / env.sqrt t
      let d2 := d1 - v * env.sqrt t
      match self.optionType with
      | FinLiborCapFloorType.CAP =>
          Except.ok (df * (f * env.normCdf d1 - k * env.normCdf d2))
      | FinLiborCapFloorType.FLOOR =>
          Except.ok (df * (k * env.normCdf (-d2) - f * env.normCdf (-d1)))
  | FinLiborModel.other => Except.error FinError.unknownModelType

/-- The per-period loop of `value` (source lines 195-225), iterating over
the pairs `(dates[i-1], dates[i])` for `i` in `range(2, numOptions)`.
Each iteration computes the accrual factor, discount factor, forward rate
and the (notional-scaled, df-discounted) intrinsic value, then calls the
pricer; a pricer error aborts the call, leaving the series as appended so
far; on success all six series receive the period's entries. -/
def FinLiborCapFloor.valueLoop (env : FinEnv) (valuationDate : FinDate)
    (model : FinLiborModel) :
    List (FinDate × FinDate) → FinLiborCapFloor → ℚ →
      FinLiborCapFloor × Except FinError ℚ
  | [], self, capFloorValue => (self, Except.ok capFloorValue)
  | (startDate, endDate) :: rest, self, capFloorValue =>
      let alpha := env.yearFrac self.dayCountType startDate endDate
      let df := env.df endDate
      let fwdRate := env.fwdRate startDate endDate self.dayCountType
      let intrinsicValue :=
        (match self.optionType with
         | FinLiborCapFloorType.CAP =>
             df * alpha * max (fwdRate - self.strikeRate) 0
         | FinLiborCapFloorType.FLOOR =>
             df * alpha * max (self.strikeRate - fwdRate) 0) * self.notional
      match self.valueCapletFloorLet env valuationDate startDate endDate
          model with
      | Except.error e => (self, Except.error e)
      | Except.ok price =>
          let capFloorLetValue := price * self.notional * alpha
          let capFloorValue := capFloorValue + capFloorLetValue
          let self :=
            { self with
              capFloorLetFwdRates := self.capFloorLetFwdRates ++ [fwdRate]
              capFloorLetValues := self.capFloorLetValues ++
                [capFloorLetValue]
              capFloorLetAlphas := self.capFloorLetAlphas ++ [alpha]
              capFloorLetIntrinsic := self.capFloorLetIntrinsic ++
                [intrinsicValue]
              capFloorLetDiscountFactors :=
                self.capFloorLetDiscountFactors ++ [df]
              capFloorPV := self.capFloorPV ++ [capFloorValue] }
          FinLiborCapFloor.valueLoop env valuationDate model rest self
            capFloorValue

/-- The valuation method `value` (source lines 129-227).  It first stores
the valuation date and regenerates the cached schedule (lines 134-141),
validates the strike and the schedule length (lines 147-151), resets the
six result series to their sentinel first entries (lines 155-160), values
the first period at intrinsic only (lines 164-193, using `lastFixing`
when supplied) and then runs the per-period loop.  Mutations made before
a raise persist in the returned state, as they do on the Python object. -/
def FinLiborCapFloor.value (self : FinLiborCapFloor) (env : FinEnv)
    (valuationDate : FinDate) (model : FinLiborModel) :
    FinLiborCapFloor × Except FinError ℚ :=
  let self := { self with valuationDate := some valuationDate }
  let dates := env.schedGen self.startDate self.maturityDate
      self.frequencyType self.calendarType self.busDayAdjustType
      self.dateGenRuleType
  let self := { self with capFloorDates := dates }
  let numOptions := dates.length
  let strikeRate := self.strikeRate
  if strikeRate < 0 then (self, Except.error FinError.strikeNegative)
  else if numOptions ≤ 1 then (self, Except.error FinError.tooFewOptions)
  else
    let self :=
      { self with
        capFloorLetValues := [0]
        capFloorLetAlphas := [0]
        capFloorLetFwdRates := [0]
        capFloorLetIntrinsic := [0]
        capFloorLetDiscountFactors := [1]
        capFloorPV := [0] }
    let startDate := self.startDate
    let endDate := dates.getD 1 0
    let fwdRate :=
      match self.lastFixing with
      | none => env.fwdRate startDate endDate self.dayCountType
      | some fixing => fixing
    let alpha := env.yearFrac self.dayCountType startDate endDate
    let df := env.df endDate
    let capFloorLetValue :=
      (match self.optionType with
       | FinLiborCapFloorType.CAP =>
           df * alpha * max (fwdRate - strikeRate) 0
       | FinLiborCapFloorType.FLOOR =>
           df * alpha * max (strikeRate - fwdRate) 0) * self.notional
    let capFloorValue := capFloorLetValue
    let self :=
      { self with
        capFloorLetFwdRates := self.capFloorLetFwdRates ++ [fwdRate]
        capFloorLetValues := self.capFloorLetValues ++ [capFloorLetValue]
        capFloorLetAlphas := self.capFloorLetAlphas ++ [alpha]
        capFloorLetIntrinsic := self.capFloorLetIntrinsic ++
          [capFloorLetValue]
        capFloorLetDiscountFactors := self.capFloorLetDiscountFactors ++
          [df]
        capFloorPV := self.capFloorPV ++ [capFloorValue] }
    FinLiborCapFloor.valueLoop env valuationDate model
      ((dates.drop 1).zip (dates.drop 2)) self capFloorValue

/-- The schedule generated for an instrument by a `value` call. -/
def sched (env : FinEnv) (cf : FinLiborCapFloor) : List FinDate :=
  env.schedGen cf.startDate cf.maturityDate cf.frequencyType
    cf.calendarType cf.busDayAdjustType cf.dateGenRuleType

/-- The spec's `InvalidSchedule` failure class: the result is one of the
two errors raised by `value`'s validation stage. -/
def isInvalidSchedule : Except FinError ℚ → Bool
  | Except.error FinError.strikeNegative => true
  | Except.error FinError.tooFewOptions => true
  | _ => false

/-! ### Helper lemmas -/

/-- The first accrual period's forward rate: `lastFixing` when supplied,
else the curve's forward rate from the start date to the second schedule
date (source lines 171-175). -/
def firstFwd (env : FinEnv) (cf : FinLiborCapFloor) : ℚ :=
  match cf.lastFixing with
  | none => env.fwdRate cf.startDate ((sched env cf).getD 1 0) cf.dayCountType
  | some fixing => fixing

/-- The first accrual period's year fraction (source line 177). -/
def firstAlpha (env : FinEnv) (cf : FinLiborCapFloor) : ℚ :=
  env.yearFrac cf.dayCountType cf.startDate ((sched env cf).getD 1 0)

/-- The discount factor to the first period's payment date (line 178). -/
def firstDf (env : FinEnv) (cf : FinLiborCapFloor) : ℚ :=
  env.df ((sched env cf).getD 1 0)

/-- The first caplet/floorlet's value: pure intrinsic, scaled by the
notional (source lines 180-185). -/
def firstLetValue (env : FinEnv) (cf : FinLiborCapFloor) : ℚ :=
  (match cf.optionType with
   | FinLiborCapFloorType.CAP =>
       firstDf env cf * firstAlpha env cf *
         max (firstFwd env cf - cf.strikeRate) 0
   | FinLiborCapFloorType.FLOOR =>
       firstDf env cf * firstAlpha env cf *
         max (cf.strikeRate - firstFwd env cf) 0) * cf.notional

/-- The instrument state after `value` has passed validation and recorded
the sentinel and first-period entries (source lines 134-193), just before
the per-period loop starts. -/
def firstPeriodState (env : FinEnv) (cf : FinLiborCapFloor)
    (vd : FinDate) : FinLiborCapFloor :=
  { cf with
    valuationDate := some vd
    capFloorDates := sched env cf
    capFloorLetValues := [0, firstLetValue env cf]
    capFloorLetAlphas := [0, firstAlpha env cf]
    capFloorLetFwdRates := [0, firstFwd env cf]
    capFloorLetIntrinsic := [0, firstLetValue env cf]
    capFloorLetDiscountFactors := [1, firstDf env cf]
    capFloorPV := [0, firstLetValue env cf] }

/-- `b` is the state `a` with the same number of entries appended to each
of the six result series and every other field untouched. -/
def extState (a b : FinLiborCapFloor) : Prop :=
  b.valuationDate = a.valuationDate ∧ b.capFloorDates = a.capFloorDates ∧
  ∃ t1 t2 t3 t4 t5 t6 : List ℚ,
    b.capFloorLetValues = a.capFloorLetValues ++ t1 ∧
    b.capFloorLetAlphas = a.capFloorLetAlphas ++ t2 ∧
    b.capFloorLetFwdRates = a.capFloorLetFwdRates ++ t3 ∧
    b.capFloorLetIntrinsic = a.capFloorLetIntrinsic ++ t4 ∧
    b.capFloorLetDiscountFactors = a.capFloorLetDiscountFactors ++ t5 ∧
    b.capFloorPV = a.capFloorPV ++ t6 ∧
    t1.length = t2.length ∧ t1.length = t3.length ∧
    t1.length = t4.length ∧ t1.length = t5.length ∧ t1.length = t6.length

/-- The per-period put-call parity invariant between a CAP-state and a
FLOOR-state: the two runs have recorded identical accrual factors,
forward rates and discount factors, their series of per-period values
have equal length (and are aligned with the other series), and entrywise
the cap value minus the floor value is
`notional * alpha * df * (forward - k)`. -/
def parityInv (k notional : ℚ) (stC stF : FinLiborCapFloor) : Prop :=
  stC.capFloorLetAlphas = stF.capFloorLetAlphas ∧
  stC.capFloorLetFwdRates = stF.capFloorLetFwdRates ∧
  stC.capFloorLetDiscountFactors = stF.capFloorLetDiscountFactors ∧
  stF.capFloorLetValues.length = stC.capFloorLetValues.length ∧
  stC.capFloorLetAlphas.length = stC.capFloorLetValues.length ∧
  stC.capFloorLetFwdRates.length = stC.capFloorLetValues.length ∧
  stC.capFloorLetDiscountFactors.length = stC.capFloorLetValues.length ∧
  ∀ i, stC.capFloorLetValues.getD i 0 - stF.capFloorLetValues.getD i 0 =
    notional * stC.capFloorLetAlphas.getD i 0 *
      stC.capFloorLetDiscountFactors.getD i 0 *
      (stC.capFloorLetFwdRates.getD i 0 - k)


/-- A concrete environment for the closed instance theorems: a
three-date quarterly schedule, a flat curve (forward 3.5%, discount
factor 1), and simple stand-ins for the numerical services.  The normal
CDF stand-in is the constant 1/2, which satisfies the reflection
property of the standard normal CDF. -/
def envW : FinEnv where
  schedGen := fun _ _ _ _ _ _ => [0, 90, 180]
  yearFrac := fun _ _ _ => 1 / 4
  df := fun _ => 1
  fwdRate := fun _ _ _ => 7 / 200
  normCdf := fun _ => 1 / 2
  log := fun _ => 0
  sqrt := fun _ => 1
  blackVolFromSABR := fun _ _ _ _ _ _ _ => 1 / 5
  addTenor := fun d _ => d + 365
  adjust := fun _ _ d => d

/-- `envW` with a schedule of exactly two dates (one accrual period). -/
def envW2 : FinEnv :=
  { envW with schedGen := fun _ _ _ _ _ _ => [0, 90] }

/-- A concrete freshly-constructed CAP instrument (strike 3%, one
million notional, no last fixing). -/
def capW : FinLiborCapFloor where
  startDate := 0
  maturityDate := 180
  optionType := FinLiborCapFloorType.CAP
  strikeRate := 3 / 100
  lastFixing := none
  frequencyType := FinFrequencyTypes.QUARTERLY
  dayCountType := FinDayCountTypes.THIRTY_E_360_ISDA
  notional := 1000000
  calendarType := FinCalendarTypes.WEEKEND
  busDayAdjustType := FinBusDayAdjustTypes.FOLLOWING
  dateGenRuleType := FinDateGenRuleTypes.BACKWARD
  capFloorLetValues := []
  capFloorLetAlphas := []
  capFloorLetFwdRates := []
  capFloorLetIntrinsic := []
  capFloorLetDiscountFactors := []
  capFloorPV := []
  valuationDate := none
  capFloorDates := []

/-- The FLOOR twin of `capW`. -/
def floorW : FinLiborCapFloor :=
  { capW with optionType := FinLiborCapFloorType.FLOOR }

lemma getD_snoc (l : List ℚ) (x : ℚ) (i : ℕ) :
    (l ++ [x]).getD i 0 =
      if i < l.length then l.getD i 0 else if i = l.length then x else 0 := by
  rcases lt_trichotomy i l.length with h | h | h
  · rw [List.getD_append _ _ _ _ h, if_pos h]
  · subst h
    rw [if_neg (lt_irrefl _), if_pos rfl,
      List.getD_append_right _ _ _ _ le_rfl, Nat.sub_self]
    rfl
  · rw [if_neg (not_lt_of_gt h), if_neg (Nat.ne_of_gt h),
      List.getD_append_right _ _ _ _ (le_of_lt h)]
    rcases Nat.exists_eq_add_of_lt h with ⟨j, hj⟩
    have hpos : l.length < i := h
    have : i - l.length = j + 1 := by omega
    rw [this]
    rfl

lemma max_sub_max_swap (x : ℚ) : max x 0 - max (-x) 0 = x := by
  rcases le_total x 0 with h | h
  · rw [max_eq_right h, max_eq_left (neg_nonneg.mpr h)]
    ring
  · rw [max_eq_left h, max_eq_right (neg_nonpos.mpr h)]
    ring

lemma cap_floor_intrinsic_diff (df alpha f k notional : ℚ) :
    df * alpha * max (f - k) 0 * notional -
      df * alpha * max (k - f) 0 * notional =
    notional * alpha * df * (f - k) := by
  have hm := max_sub_max_swap (f - k)
  rw [neg_sub] at hm
  linear_combination df * alpha * notional * hm


/-- When validation passes, `value` is the per-period loop started from
the first-period state with the first period's value accumulated. -/
lemma value_eq_of_valid (env : FinEnv) (cf : FinLiborCapFloor)
    (vd : FinDate) (model : FinLiborModel)
    (h1 : ¬ cf.strikeRate < 0) (h2 : ¬ (sched env cf).length ≤ 1) :
    cf.value env vd model =
      FinLiborCapFloor.valueLoop env vd model
        (((sched env cf).drop 1).zip ((sched env cf).drop 2))
        (firstPeriodState env cf vd) (firstLetValue env cf) := by
  unfold FinLiborCapFloor.value
  simp only [sched] at h2
  dsimp only
  rw [if_neg h1, if_neg h2]
  rfl

/-- When validation fails, `value` raises before touching the result
series, but with the valuation date and the cached schedule already
overwritten. -/
lemma value_eq_of_invalid (env : FinEnv) (cf : FinLiborCapFloor)
    (vd : FinDate) (model : FinLiborModel)
    (h : cf.strikeRate < 0 ∨ (sched env cf).length ≤ 1) :
    cf.value env vd model =
      ({ cf with valuationDate := some vd, capFloorDates := sched env cf },
        Except.error (if cf.strikeRate < 0 then FinError.strikeNegative
          else FinError.tooFewOptions)) := by
  unfold FinLiborCapFloor.value
  simp only [sched] at h ⊢
  by_cases h1 : cf.strikeRate < 0
  · rw [if_pos h1, if_pos h1]
  · rw [if_neg h1, if_pos (h.resolve_left h1), if_neg h1]

/-- A successful `value` call implies the validation checks passed. -/
lemma value_ok_valid (env : FinEnv) (cf : FinLiborCapFloor) (vd : FinDate)
    (model : FinLiborModel) (hOk : (cf.value env vd model).2.isOk = true) :
    ¬ cf.strikeRate < 0 ∧ ¬ (sched env cf).length ≤ 1 := by
  by_cases h1 : cf.strikeRate < 0
  · rw [value_eq_of_invalid env cf vd model (Or.inl h1)] at hOk
    simp [Except.isOk, Except.toBool] at hOk
  · by_cases h2 : (sched env cf).length ≤ 1
    · rw [value_eq_of_invalid env cf vd model (Or.inr h2)] at hOk
      simp [Except.isOk, Except.toBool] at hOk
    · exact ⟨h1, h2⟩

/-- With a two-date schedule the per-period loop is empty: `value`
returns the first-period state and the first period's intrinsic value,
whatever the model. -/
lemma value_two_dates (env : FinEnv) (cf : FinLiborCapFloor)
    (vd : FinDate) (model : FinLiborModel)
    (hstrike : 0 ≤ cf.strikeRate) (hlen : (sched env cf).length = 2) :
    cf.value env vd model =
      (firstPeriodState env cf vd, Except.ok (firstLetValue env cf)) := by
  rw [value_eq_of_valid env cf vd model (not_lt.mpr hstrike)
    (by omega)]
  have hdrop : (sched env cf).drop 2 = [] :=
    List.drop_eq_nil_of_le (le_of_eq hlen)
  rw [hdrop, List.zip_nil_right]
  rfl

/-- The caplet/floorlet pricer never raises either of the two errors of
`value`'s validation stage: its errors are the negative-volatility, the
non-positive-forward and the unknown-model errors. -/
lemma pricer_error_cases (self : FinLiborCapFloor) (env : FinEnv)
    (vd s e : FinDate) (model : FinLiborModel) (err : FinError)
    (h : self.valueCapletFloorLet env vd s e model = Except.error err) :
    err = FinError.volMustBePositive ∨ err = FinError.fwdMustBePositive ∨
      err = FinError.unknownModelType := by
  unfold FinLiborCapFloor.valueCapletFloorLet at h
  cases model <;> dsimp only at h
  case black v =>
      split at h
      · simp_all
      · split at h
        · simp_all
        · split at h <;> simp_all
  case shiftedBlack v hshift =>
      split at h
      · simp_all
      · split at h <;> simp_all
  case sabr a b r n =>
      split at h <;> simp_all
  case other => simp_all

/-- The per-period loop can only fail with an error of the pricer, never
with one of the validation errors. -/
lemma valueLoop_error_cases (env : FinEnv) (vd : FinDate)
    (model : FinLiborModel) :
    ∀ (ps : List (FinDate × FinDate)) (st : FinLiborCapFloor) (acc : ℚ),
    isInvalidSchedule
      (FinLiborCapFloor.valueLoop env vd model ps st acc).2 = false := by
  intro ps
  induction ps with
  | nil => intro st acc; simp [FinLiborCapFloor.valueLoop, isInvalidSchedule]
  | cons p rest ih =>
      intro st acc
      obtain ⟨s, e⟩ := p
      rw [FinLiborCapFloor.valueLoop]
      cases hp : st.valueCapletFloorLet env vd s e model with
      | error err =>
          rcases pricer_error_cases st env vd s e model err hp with
            h | h | h <;>
            subst h <;> rfl
      | ok price => exact ih _ _


lemma extState_refl (a : FinLiborCapFloor) : extState a a :=
  ⟨rfl, rfl, [], [], [], [], [], [], by simp, by simp, by simp, by simp,
    by simp, by simp, rfl, rfl, rfl, rfl, rfl⟩

lemma extState_snoc (a : FinLiborCapFloor) (x1 x2 x3 x4 x5 x6 : ℚ) :
    extState a
      { a with
        capFloorLetFwdRates := a.capFloorLetFwdRates ++ [x3]
        capFloorLetValues := a.capFloorLetValues ++ [x1]
        capFloorLetAlphas := a.capFloorLetAlphas ++ [x2]
        capFloorLetIntrinsic := a.capFloorLetIntrinsic ++ [x4]
        capFloorLetDiscountFactors := a.capFloorLetDiscountFactors ++ [x5]
        capFloorPV := a.capFloorPV ++ [x6] } :=
  ⟨rfl, rfl, [x1], [x2], [x3], [x4], [x5], [x6], rfl, rfl, rfl, rfl, rfl,
    rfl, rfl, rfl, rfl, rfl, rfl⟩

lemma extState_trans {a b c : FinLiborCapFloor} (hab : extState a b)
    (hbc : extState b c) : extState a c := by
  obtain ⟨v1, d1, t1, t2, t3, t4, t5, t6, e1, e2, e3, e4, e5, e6,
    l2, l3, l4, l5, l6⟩ := hab
  obtain ⟨v1', d1', u1, u2, u3, u4, u5, u6, f1, f2, f3, f4, f5, f6,
    m2, m3, m4, m5, m6⟩ := hbc
  refine ⟨v1'.trans v1, d1'.trans d1, t1 ++ u1, t2 ++ u2, t3 ++ u3,
    t4 ++ u4, t5 ++ u5, t6 ++ u6, ?_, ?_, ?_, ?_, ?_, ?_, ?_, ?_, ?_, ?_,
    ?_⟩ <;> simp_all [List.append_assoc]

/-- The per-period loop only appends to the six result series, never
touching any other field of the state. -/
lemma valueLoop_extState (env : FinEnv) (vd : FinDate)
    (model : FinLiborModel) :
    ∀ (ps : List (FinDate × FinDate)) (st : FinLiborCapFloor) (acc : ℚ),
    extState st (FinLiborCapFloor.valueLoop env vd model ps st acc).1 := by
  intro ps
  induction ps with
  | nil => intro st acc; exact extState_refl st
  | cons p rest ih =>
      intro st acc
      obtain ⟨s, e⟩ := p
      simp only [FinLiborCapFloor.valueLoop]
      cases hp : st.valueCapletFloorLet env vd s e model with
      | error err => exact extState_refl st
      | ok price =>
          exact extState_trans (extState_snoc st _ _ _ _ _ _) (ih _ _)

/-- On a successful run, the loop appends exactly one entry per period to
the series of per-period values. -/
lemma valueLoop_count (env : FinEnv) (vd : FinDate)
    (model : FinLiborModel) :
    ∀ (ps : List (FinDate × FinDate)) (st : FinLiborCapFloor) (acc : ℚ),
    (FinLiborCapFloor.valueLoop env vd model ps st acc).2.isOk = true →
    (FinLiborCapFloor.valueLoop env vd model ps st
        acc).1.capFloorLetValues.length =
      st.capFloorLetValues.length + ps.length := by
  intro ps
  induction ps with
  | nil => intro st acc _; simp [FinLiborCapFloor.valueLoop]
  | cons p rest ih =>
      intro st acc hOk
      obtain ⟨s, e⟩ := p
      rw [FinLiborCapFloor.valueLoop] at hOk ⊢
      cases hp : st.valueCapletFloorLet env vd s e model with
      | error err =>
          rw [hp] at hOk
          simp [Except.isOk, Except.toBool] at hOk
      | ok price =>
          rw [hp] at hOk
          dsimp only at hOk ⊢
          have h := ih _ _ hOk
          simp only [List.length_append, List.length_singleton] at h
          simp only [List.length_cons]
          omega


lemma parityInv_snoc (k notional : ℚ) (stC stF : FinLiborCapFloor)
    (alpha df f xC xF iC iF pC pF : ℚ)
    (h : parityInv k notional stC stF)
    (hx : xC - xF = notional * alpha * df * (f - k)) :
    parityInv k notional
      { stC with
        capFloorLetFwdRates := stC.capFloorLetFwdRates ++ [f]
        capFloorLetValues := stC.capFloorLetValues ++ [xC]
        capFloorLetAlphas := stC.capFloorLetAlphas ++ [alpha]
        capFloorLetIntrinsic := stC.capFloorLetIntrinsic ++ [iC]
        capFloorLetDiscountFactors := stC.capFloorLetDiscountFactors ++ [df]
        capFloorPV := stC.capFloorPV ++ [pC] }
      { stF with
        capFloorLetFwdRates := stF.capFloorLetFwdRates ++ [f]
        capFloorLetValues := stF.capFloorLetValues ++ [xF]
        capFloorLetAlphas := stF.capFloorLetAlphas ++ [alpha]
        capFloorLetIntrinsic := stF.capFloorLetIntrinsic ++ [iF]
        capFloorLetDiscountFactors := stF.capFloorLetDiscountFactors ++ [df]
        capFloorPV := stF.capFloorPV ++ [pF] } := by
  obtain ⟨h1, h2, h3, h4, h5, h6, h7, h8⟩ := h
  refine ⟨by rw [h1], by rw [h2], by rw [h3], by simp [h4], by simp [h5],
    by simp [h6], by simp [h7], ?_⟩
  intro i
  dsimp only
  simp only [getD_snoc, h4, h5, h6, h7]
  split_ifs with hlt heq
  · exact h8 i
  · exact hx
  · ring

/-- Put-call parity at the level of a single Black-model pricer call:
with the normal-CDF reflection property, a successful CAP pricing and a
successful FLOOR pricing of the same period differ by
`df * (forward - substituted strike)`. -/
lemma black_pricer_parity (env : FinEnv) (stC stF : FinLiborCapFloor)
    (vd s e : FinDate) (v pc pf : ℚ)
    (hPhi : ∀ x, env.normCdf (-x) = 1 - env.normCdf x)
    (hC : stC.optionType = FinLiborCapFloorType.CAP)
    (hF : stF.optionType = FinLiborCapFloorType.FLOOR)
    (hk : stF.strikeRate = stC.strikeRate)
    (hd : stF.dayCountType = stC.dayCountType)
    (hpc : stC.valueCapletFloorLet env vd s e (FinLiborModel.black v) =
      Except.ok pc)
    (hpf : stF.valueCapletFloorLet env vd s e (FinLiborModel.black v) =
      Except.ok pf) :
    pc - pf = env.df e * (env.fwdRate s e stC.dayCountType -
      (if stC.strikeRate = 0 then epsTiny else stC.strikeRate)) := by
  unfold FinLiborCapFloor.valueCapletFloorLet at hpc hpf
  rw [hC] at hpc
  rw [hF, hk, hd] at hpf
  dsimp only at hpc hpf
  by_cases hv : v < 0
  · rw [if_pos hv] at hpc
    exact absurd hpc (by simp)
  · rw [if_neg hv] at hpc hpf
    by_cases hf : env.fwdRate s e stC.dayCountType ≤ 0
    · rw [if_pos hf] at hpc
      exact absurd hpc (by simp)
    · rw [if_neg hf] at hpc hpf
      simp only [Except.ok.injEq] at hpc hpf
      rw [← hpc, ← hpf]
      simp only [hPhi]
      ring

/-- The per-period loop preserves put-call parity: two successful runs of
the loop over the same periods, one on a CAP state and one on a FLOOR
state agreeing on strike, day count and notional, preserve `parityInv`
(Black model, nonzero strike). -/
lemma valueLoop_parity (env : FinEnv) (vd : FinDate) (v : ℚ)
    (hPhi : ∀ x, env.normCdf (-x) = 1 - env.normCdf x) :
    ∀ (ps : List (FinDate × FinDate)) (stC stF : FinLiborCapFloor)
      (accC accF : ℚ),
    stC.optionType = FinLiborCapFloorType.CAP →
    stF.optionType = FinLiborCapFloorType.FLOOR →
    stF.strikeRate = stC.strikeRate →
    stF.dayCountType = stC.dayCountType →
    stF.notional = stC.notional →
    stC.strikeRate ≠ 0 →
    parityInv stC.strikeRate stC.notional stC stF →
    (FinLiborCapFloor.valueLoop env vd (FinLiborModel.black v) ps stC
      accC).2.isOk = true →
    (FinLiborCapFloor.valueLoop env vd (FinLiborModel.black v) ps stF
      accF).2.isOk = true →
    parityInv stC.strikeRate stC.notional
      (FinLiborCapFloor.valueLoop env vd (FinLiborModel.black v) ps stC
        accC).1
      (FinLiborCapFloor.valueLoop env vd (FinLiborModel.black v) ps stF
        accF).1 := by
  intro ps
  induction ps with
  | nil =>
      intro stC stF accC accF _ _ _ _ _ _ hinv _ _
      simpa [FinLiborCapFloor.valueLoop] using hinv
  | cons p rest ih =>
      intro stC stF accC accF hC hF hk hd hN hk0 hinv hOkC hOkF
      obtain ⟨s, e⟩ := p
      simp only [FinLiborCapFloor.valueLoop] at hOkC hOkF ⊢
      cases hpc : stC.valueCapletFloorLet env vd s e
          (FinLiborModel.black v) with
      | error err =>
          rw [hpc] at hOkC
          simp [Except.isOk, Except.toBool] at hOkC
      | ok pc =>
          cases hpf : stF.valueCapletFloorLet env vd s e
              (FinLiborModel.black v) with
          | error err =>
              rw [hpf] at hOkF
              simp [Except.isOk, Except.toBool] at hOkF
          | ok pf =>
              rw [hpc] at hOkC
              rw [hpf] at hOkF
              dsimp only at hOkC hOkF ⊢
              rw [hd, hk, hN] at hOkF ⊢
              have hx : pc * stC.notional *
                    env.yearFrac stC.dayCountType s e -
                  pf * stC.notional * env.yearFrac stC.dayCountType s e =
                  stC.notional * env.yearFrac stC.dayCountType s e *
                    env.df e *
                    (env.fwdRate s e stC.dayCountType - stC.strikeRate) := by
                have hpar := black_pricer_parity env stC stF vd s e v pc pf
                  hPhi hC hF hk hd hpc hpf
                rw [if_neg hk0] at hpar
                have hsplit : pc * stC.notional *
                      env.yearFrac stC.dayCountType s e -
                    pf * stC.notional *
                      env.yearFrac stC.dayCountType s e =
                    (pc - pf) * stC.notional *
                      env.yearFrac stC.dayCountType s e := by ring
                rw [hsplit, hpar]
                ring
              refine ih _ _ _ _ hC hF rfl rfl rfl hk0 ?_ hOkC hOkF
              exact parityInv_snoc stC.strikeRate stC.notional stC stF
                (env.yearFrac stC.dayCountType s e) (env.df e)
                (env.fwdRate s e stC.dayCountType)
                (pc * stC.notional * env.yearFrac stC.dayCountType s e)
                (pf * stC.notional * env.yearFrac stC.dayCountType s e)
                ((match stC.optionType with
                  | FinLiborCapFloorType.CAP =>
                      env.df e * env.yearFrac stC.dayCountType s e *
                        max (env.fwdRate s e stC.dayCountType -
                          stC.strikeRate) 0
                  | FinLiborCapFloorType.FLOOR =>
                      env.df e * env.yearFrac stC.dayCountType s e *
                        max (stC.strikeRate -
                          env.fwdRate s e stC.dayCountType) 0) *
                  stC.notional)
                ((match stF.optionType with
                  | FinLiborCapFloorType.CAP =>
                      env.df e * env.yearFrac stC.dayCountType s e *
                        max (env.fwdRate s e stC.dayCountType -
                          stC.strikeRate) 0
                  | FinLiborCapFloorType.FLOOR =>
                      env.df e * env.yearFrac stC.dayCountType s e *
                        max (stC.strikeRate -
                          env.fwdRate s e stC.dayCountType) 0) *
                  stC.notional)
                (accC + pc * stC.notional * env.yearFrac stC.dayCountType
                  s e)
                (accF + pf * stC.notional * env.yearFrac stC.dayCountType
                  s e)
                hinv hx

/-! ### Claim theorems -/

/-- C4 (counterexample): with `startDate = maturityDate = 0` the
constructor succeeds and produces an instrument, contradicting the claim
that construction enforces the strict invariant
`startDate < maturityDate` and fails when the dates are equal.  The
source (line 79) only rejects `startDate > maturityDate`. -/
theorem claim_C4_counterexample :
    (init envW 0 (Sum.inl 0) FinLiborCapFloorType.CAP (3 / 100) none
      FinFrequencyTypes.QUARTERLY FinDayCountTypes.THIRTY_E_360_ISDA
      1000000 FinCalendarTypes.WEEKEND FinBusDayAdjustTypes.FOLLOWING
      FinDateGenRuleTypes.BACKWARD).isOk = true := by decide

/-- C4 (amended): construction enforces the non-strict invariant
`startDate ≤ maturityDate`: the constructor succeeds exactly when the
start date is at most the (possibly tenor-resolved, business-day-
adjusted) maturity date, so `startDate = maturityDate` is accepted; it
fails (with the start-after-maturity error) exactly when the start date
is strictly after the resolved maturity date. -/
theorem claim_C4_start_le_maturity (env : FinEnv) (startDate : FinDate)
    (maturityDateOrTenor : FinDate ⊕ String)
    (optionType : FinLiborCapFloorType) (strikeRate : ℚ)
    (lastFixing : Option ℚ) (frequencyType : FinFrequencyTypes)
    (dayCountType : FinDayCountTypes) (notional : ℚ)
    (calendarType : FinCalendarTypes)
    (busDayAdjustType : FinBusDayAdjustTypes)
    (dateGenRuleType : FinDateGenRuleTypes) :
    (init env startDate maturityDateOrTenor optionType strikeRate
        lastFixing frequencyType dayCountType notional calendarType
        busDayAdjustType dateGenRuleType).isOk = true ↔
      startDate ≤ resolveMaturity env startDate maturityDateOrTenor
        calendarType busDayAdjustType := by
  unfold init
  dsimp only
  by_cases h : startDate > resolveMaturity env startDate
      maturityDateOrTenor calendarType busDayAdjustType
  · rw [if_pos h]
    simp [Except.isOk, Except.toBool, not_le.mpr h]
  · rw [if_neg h]
    simp [Except.isOk, Except.toBool, not_lt.mp h]

/-- C6 (counterexample): an instrument whose generated schedule has
exactly two boundary dates (one accrual period) values successfully
instead of raising `InvalidSchedule`: the source raises only when the
schedule has at most one date (`numOptions <= 1`, line 150), and with
two dates the model loop is empty. -/
theorem claim_C6_counterexample :
    (capW.value envW2 0 (FinLiborModel.black (1 / 5))).2.isOk = true := by
  norm_num [FinLiborCapFloor.value, FinLiborCapFloor.valueLoop,
    FinLiborCapFloor.valueCapletFloorLet, envW2, envW, capW, sched,
    Except.isOk, Except.toBool]

/-- C6 (amended): `value()` raises `InvalidSchedule` only for schedules
with at most one date; for an instrument with a nonnegative strike whose
generated schedule contains exactly one accrual period (two boundary
dates), `value()` succeeds (returning the first period's intrinsic
value) rather than failing. -/
theorem claim_C6_one_period_succeeds (env : FinEnv)
    (cf : FinLiborCapFloor) (vd : FinDate) (model : FinLiborModel)
    (hstrike : 0 ≤ cf.strikeRate)
    (hlen : (sched env cf).length = 2) :
    (cf.value env vd model).2.isOk = true := by
  rw [value_two_dates env cf vd model hstrike hlen]
  rfl

/-- C6 (witness for the amended claim). -/
theorem claim_C6_witness :
    (floorW.value envW2 5 FinLiborModel.other).2.isOk = true :=
  claim_C6_one_period_succeeds envW2 floorW 5 FinLiborModel.other
    (by norm_num [floorW, capW]) (by decide)

/-- C10: with a two-date schedule (and the nonnegative strike required
by validation) `value()` never dispatches on the volatility model: for
every model argument whatsoever — an unrecognized model object, a
negative Black volatility, anything — the call succeeds and returns the
first period's intrinsic value `firstLetValue`, although such models
would raise `UnsupportedModel` or `InvalidModel` in any later period. -/
theorem claim_C10_two_dates_any_model (env : FinEnv)
    (cf : FinLiborCapFloor) (vd : FinDate)
    (hstrike : 0 ≤ cf.strikeRate)
    (hlen : (sched env cf).length = 2) :
    ∀ model : FinLiborModel,
      (cf.value env vd model).2 = Except.ok (firstLetValue env cf) := by
  intro model
  rw [value_two_dates env cf vd model hstrike hlen]

/-- C10 (witness): at a concrete two-date instrument, an unrecognized
model object still yields the first-period intrinsic value. -/
theorem claim_C10_witness :
    (capW.value envW2 3 FinLiborModel.other).2 =
      Except.ok (firstLetValue envW2 capW) :=
  claim_C10_two_dates_any_model envW2 capW 3 (by norm_num [capW])
    (by decide) FinLiborModel.other

/-- C2 (counterexample): a failing `value()` call does change the
instrument's observable state.  With a negative Black volatility the
call fails in the pricer at period 2, yet afterwards the stored
valuation date has been overwritten and the series of per-period values
has been rebuilt up to the failure point (sentinel plus period 1), so
neither equals its pre-call value. -/
theorem claim_C2_counterexample :
    (capW.value envW 5 (FinLiborModel.black (-1))).2.isOk = false ∧
    (capW.value envW 5 (FinLiborModel.black (-1))).1.valuationDate ≠
      capW.valuationDate ∧
    (capW.value envW 5 (FinLiborModel.black (-1))).1.capFloorLetValues ≠
      capW.capFloorLetValues := by
  norm_num [FinLiborCapFloor.value, FinLiborCapFloor.valueLoop,
    FinLiborCapFloor.valueCapletFloorLet, envW, capW, sched,
    Except.isOk, Except.toBool]
  exact ⟨by simp, by simp⟩

/-- C2 (amended): only the validation-stage failures (negative strike or
a schedule with at most one date) leave the six result series exactly as
they were before the call; even those failing calls overwrite the stored
valuation date and the cached schedule dates, and a pricer error raised
mid-iteration additionally leaves the result series partially rebuilt. -/
theorem claim_C2_validation_failure_state (env : FinEnv)
    (cf : FinLiborCapFloor) (vd : FinDate) (model : FinLiborModel)
    (h : cf.strikeRate < 0 ∨ (sched env cf).length ≤ 1) :
    (cf.value env vd model).2.isOk = false ∧
    (cf.value env vd model).1.capFloorLetValues = cf.capFloorLetValues ∧
    (cf.value env vd model).1.capFloorLetAlphas = cf.capFloorLetAlphas ∧
    (cf.value env vd model).1.capFloorLetFwdRates =
      cf.capFloorLetFwdRates ∧
    (cf.value env vd model).1.capFloorLetIntrinsic =
      cf.capFloorLetIntrinsic ∧
    (cf.value env vd model).1.capFloorLetDiscountFactors =
      cf.capFloorLetDiscountFactors ∧
    (cf.value env vd model).1.capFloorPV = cf.capFloorPV ∧
    (cf.value env vd model).1.valuationDate = some vd ∧
    (cf.value env vd model).1.capFloorDates = sched env cf := by
  rw [value_eq_of_invalid env cf vd model h]
  exact ⟨rfl, rfl, rfl, rfl, rfl, rfl, rfl, rfl, rfl⟩

/-- C2 (witness for the amended claim): a negative-strike call leaves
the (empty) series of per-period values untouched. -/
theorem claim_C2_witness :
    (({ capW with strikeRate := -1 / 100 } :
        FinLiborCapFloor).value envW 5
        (FinLiborModel.black (1 / 5))).1.capFloorLetValues =
      ({ capW with strikeRate := -1 / 100 } :
        FinLiborCapFloor).capFloorLetValues :=
  (claim_C2_validation_failure_state envW
    { capW with strikeRate := -1 / 100 } 5 (FinLiborModel.black (1 / 5))
    (Or.inl (by norm_num [capW]))).2.1

/-- C5: `value()` fails with `InvalidSchedule` (the negative-strike or
too-few-options error of its validation stage) exactly when the strike
is negative or the generated schedule has at most one date; and on such
a failure no period value has been computed — the six result series are
untouched (first two shown).  In particular a strike of −0.01 always
raises `InvalidSchedule`. -/
theorem claim_C5_invalid_schedule_iff (env : FinEnv)
    (cf : FinLiborCapFloor) (vd : FinDate) (model : FinLiborModel) :
    (isInvalidSchedule (cf.value env vd model).2 = true ↔
      (cf.strikeRate < 0 ∨ (sched env cf).length ≤ 1)) ∧
    (isInvalidSchedule (cf.value env vd model).2 = true →
      (cf.value env vd model).1.capFloorLetValues =
        cf.capFloorLetValues ∧
      (cf.value env vd model).1.capFloorPV = cf.capFloorPV) := by
  have hiff : isInvalidSchedule (cf.value env vd model).2 = true ↔
      (cf.strikeRate < 0 ∨ (sched env cf).length ≤ 1) := by
    constructor
    · intro h
      by_contra hc
      push_neg at hc
      rw [value_eq_of_valid env cf vd model (not_lt.mpr hc.1)
        (not_le.mpr hc.2)] at h
      rw [valueLoop_error_cases] at h
      exact absurd h (by simp)
    · intro h
      rw [value_eq_of_invalid env cf vd model h]
      by_cases hs : cf.strikeRate < 0
      · rw [if_pos hs]
        rfl
      · rw [if_neg hs]
        rfl
  refine ⟨hiff, fun h => ?_⟩
  rw [value_eq_of_invalid env cf vd model (hiff.mp h)]
  exact ⟨rfl, rfl⟩

/-- C1: on every successful `value` call (with the schedule generator's
contract that the first generated date is the start date, spec section
6), the first accrual period is valued at intrinsic only, never invoking
the volatility model (the right-hand side below does not mention
`model`): its per-period value is
`notional * alpha * df * max(forward - strike, 0)` for a CAP and
`notional * alpha * df * max(strike - forward, 0)` for a FLOOR, where
the forward is `lastFixing` when supplied and otherwise the curve's
forward rate over `[dates[0], dates[1]]`; the same number is stored as
the period-1 value entry, the period-1 intrinsic entry and the
cumulative PV at index 1. -/
theorem claim_C1_first_period_intrinsic (env : FinEnv)
    (cf : FinLiborCapFloor) (vd : FinDate) (model : FinLiborModel)
    (hsched : (sched env cf).getD 0 0 = cf.startDate)
    (hOk : (cf.value env vd model).2.isOk = true) :
    (cf.value env vd model).1.capFloorLetValues.getD 1 0 =
      cf.notional *
        env.yearFrac cf.dayCountType ((sched env cf).getD 0 0)
          ((sched env cf).getD 1 0) *
        env.df ((sched env cf).getD 1 0) *
        (match cf.optionType with
         | FinLiborCapFloorType.CAP =>
             max ((match cf.lastFixing with
                   | none => env.fwdRate ((sched env cf).getD 0 0)
                       ((sched env cf).getD 1 0) cf.dayCountType
                   | some fixing => fixing) - cf.strikeRate) 0
         | FinLiborCapFloorType.FLOOR =>
             max (cf.strikeRate - (match cf.lastFixing with
                   | none => env.fwdRate ((sched env cf).getD 0 0)
                       ((sched env cf).getD 1 0) cf.dayCountType
                   | some fixing => fixing)) 0) ∧
    (cf.value env vd model).1.capFloorLetIntrinsic.getD 1 0 =
      (cf.value env vd model).1.capFloorLetValues.getD 1 0 ∧
    (cf.value env vd model).1.capFloorPV.getD 1 0 =
      (cf.value env vd model).1.capFloorLetValues.getD 1 0 := by
  obtain ⟨h1, h2⟩ := value_ok_valid env cf vd model hOk
  rw [value_eq_of_valid env cf vd model h1 h2]
  have hext := valueLoop_extState env vd model
    (((sched env cf).drop 1).zip ((sched env cf).drop 2))
    (firstPeriodState env cf vd) (firstLetValue env cf)
  unfold extState at hext
  obtain ⟨hvd, hdates, t1, t2, t3, t4, t5, t6, e1, e2, e3, e4, e5, e6,
    l2, l3, l4, l5, l6⟩ := hext
  rw [e1, e4, e6]
  refine ⟨?_, rfl, rfl⟩
  show firstLetValue env cf = _
  rw [hsched]
  cases hcf : cf.optionType <;> cases hlf : cf.lastFixing <;>
    simp [firstLetValue, firstDf, firstAlpha, firstFwd, hcf, hlf] <;>
    ring

/-- C1 (witness): at a concrete successful call the period-1 intrinsic
entry equals the period-1 value entry. -/
theorem claim_C1_witness :
    (capW.value envW 0 (FinLiborModel.black (1 / 5))).1.capFloorLetIntrinsic.getD
        1 0 =
      (capW.value envW 0
        (FinLiborModel.black (1 / 5))).1.capFloorLetValues.getD 1 0 :=
  (claim_C1_first_period_intrinsic envW capW 0 (FinLiborModel.black (1 / 5))
    (by decide)
    (by norm_num [FinLiborCapFloor.value, FinLiborCapFloor.valueLoop,
      FinLiborCapFloor.valueCapletFloorLet, envW, capW, sched,
      Except.isOk, Except.toBool])).2.1

/-- C9: after every successful `value` call the six result series all
have the same length, equal to the number of schedule dates cached by
the call, and index 0 holds the sentinel entry (value 0, alpha 0,
forward 0, intrinsic 0, discount factor 1, cumulative PV 0). -/
theorem claim_C9_series_aligned (env : FinEnv) (cf : FinLiborCapFloor)
    (vd : FinDate) (model : FinLiborModel)
    (hOk : (cf.value env vd model).2.isOk = true) :
    ((cf.value env vd model).1.capFloorLetValues.length =
        (cf.value env vd model).1.capFloorDates.length ∧
      (cf.value env vd model).1.capFloorLetAlphas.length =
        (cf.value env vd model).1.capFloorDates.length ∧
      (cf.value env vd model).1.capFloorLetFwdRates.length =
        (cf.value env vd model).1.capFloorDates.length ∧
      (cf.value env vd model).1.capFloorLetIntrinsic.length =
        (cf.value env vd model).1.capFloorDates.length ∧
      (cf.value env vd model).1.capFloorLetDiscountFactors.length =
        (cf.value env vd model).1.capFloorDates.length ∧
      (cf.value env vd model).1.capFloorPV.length =
        (cf.value env vd model).1.capFloorDates.length) ∧
    ((cf.value env vd model).1.capFloorLetValues.getD 0 0 = 0 ∧
      (cf.value env vd model).1.capFloorLetAlphas.getD 0 0 = 0 ∧
      (cf.value env vd model).1.capFloorLetFwdRates.getD 0 0 = 0 ∧
      (cf.value env vd model).1.capFloorLetIntrinsic.getD 0 0 = 0 ∧
      (cf.value env vd model).1.capFloorLetDiscountFactors.getD 0 0 = 1 ∧
      (cf.value env vd model).1.capFloorPV.getD 0 0 = 0) := by
  obtain ⟨h1, h2⟩ := value_ok_valid env cf vd model hOk
  have heq := value_eq_of_valid env cf vd model h1 h2
  have hOk2 := hOk
  rw [heq] at hOk2
  have hext := valueLoop_extState env vd model
    (((sched env cf).drop 1).zip ((sched env cf).drop 2))
    (firstPeriodState env cf vd) (firstLetValue env cf)
  unfold extState at hext
  obtain ⟨hvd, hdates, t1, t2, t3, t4, t5, t6, e1, e2, e3, e4, e5, e6,
    l2, l3, l4, l5, l6⟩ := hext
  have hcount := valueLoop_count env vd model
    (((sched env cf).drop 1).zip ((sched env cf).drop 2))
    (firstPeriodState env cf vd) (firstLetValue env cf) hOk2
  rw [e1] at hcount
  have hn : 2 ≤ (sched env cf).length := by omega
  have hps : (((sched env cf).drop 1).zip
      ((sched env cf).drop 2)).length = (sched env cf).length - 2 := by
    simp [List.length_zip, List.length_drop]
    omega
  have ht1 : t1.length = (sched env cf).length - 2 := by
    rw [hps] at hcount
    simp [firstPeriodState, List.length_append] at hcount
    omega
  rw [heq]
  rw [e1, e2, e3, e4, e5, e6, hdates]
  refine ⟨⟨?_, ?_, ?_, ?_, ?_, ?_⟩, rfl, rfl, rfl, rfl, rfl, rfl⟩ <;>
    simp [firstPeriodState, List.length_append] <;> omega

/-- C9 (witness): at a concrete successful call the per-period value
series has one entry per schedule date. -/
theorem claim_C9_witness :
    (capW.value envW 0 (FinLiborModel.black (1 / 5))).1.capFloorLetValues.length =
      (capW.value envW 0 (FinLiborModel.black (1 / 5))).1.capFloorDates.length :=
  (claim_C9_series_aligned envW capW 0 (FinLiborModel.black (1 / 5))
    (by norm_num [FinLiborCapFloor.value, FinLiborCapFloor.valueLoop,
      FinLiborCapFloor.valueCapletFloorLet, envW, capW, sched,
      Except.isOk, Except.toBool])).1.1

/-- C3: the Black-model caplet/floorlet pricer fails with the
`InvalidModel` volatility error when v < 0; fails with the
`InvalidModel` forward error when the forward f ≤ 0 (and v ≥ 0);
and otherwise returns `df·(f·Φ(d1) − k·Φ(d2))` for a CAP and
`df·(k·Φ(−d2) − f·Φ(−d1))` for a FLOOR, with
`d1 = (ln(f/k) + v²t/2)/(v√t)` and `d2 = d1 − v√t`, where k is the
strike with the zero-strike substitution (k = 1e-10 when the strike is
exactly 0) and v carries the zero-volatility substitution (v = 1e-10
when v = 0). -/
theorem claim_C3_black_pricer (env : FinEnv) (self : FinLiborCapFloor)
    (vd s e : FinDate) (v : ℚ) :
    (v < 0 →
      self.valueCapletFloorLet env vd s e (FinLiborModel.black v) =
        Except.error FinError.volMustBePositive) ∧
    (0 ≤ v → env.fwdRate s e self.dayCountType ≤ 0 →
      self.valueCapletFloorLet env vd s e (FinLiborModel.black v) =
        Except.error FinError.fwdMustBePositive) ∧
    (0 ≤ v → 0 < env.fwdRate s e self.dayCountType →
      self.valueCapletFloorLet env vd s e (FinLiborModel.black v) =
        (let df := env.df e
         let t : ℚ := ((s - vd : ℤ) : ℚ) / gDaysInYear
         let f := env.fwdRate s e self.dayCountType
         let k := if self.strikeRate = 0 then epsTiny else self.strikeRate
         let v2 := if v = 0 then epsTiny else v
         let d1 := (env.log (f / k) + v2 * v2 * t / 2) /
           (v2 * env.sqrt t)
         let d2 := d1 - v2 * env.sqrt t
         match self.optionType with
         | FinLiborCapFloorType.CAP =>
             Except.ok (df * (f * env.normCdf d1 - k * env.normCdf d2))
         | FinLiborCapFloorType.FLOOR =>
             Except.ok (df * (k * env.normCdf (-d2) -
               f * env.normCdf (-d1))))) := by
  unfold FinLiborCapFloor.valueCapletFloorLet
  dsimp only
  refine ⟨fun hv => ?_, fun hv hf => ?_, fun hv hf => ?_⟩
  · rw [if_pos hv]
  · rw [if_neg (not_lt.mpr hv), if_pos hf]
  · rw [if_neg (not_lt.mpr hv), if_neg (not_le.mpr hf)]
    cases self.optionType <;> dsimp only <;> rw [div_div]

/-- C3 (witness): at concrete inputs the pricer's success branch yields
the Black formula's value, here `df·(f·Φ(d1) − k·Φ(d2)) = 1/400`. -/
theorem claim_C3_witness :
    capW.valueCapletFloorLet envW 0 90 180 (FinLiborModel.black (1 / 5)) =
      Except.ok (1 / 400) := by
  have h := (claim_C3_black_pricer envW capW 0 90 180 (1 / 5)).2.2
    (by norm_num) (by norm_num [envW])
  rw [h]
  norm_num [envW, capW, epsTiny, gDaysInYear]

/-- C7: for every period and volatility v > 0 accepted by both branches
(which also requires a positive forward on the Black side), the
ShiftedBlack pricer with shift h = 0 returns exactly the same
caplet/floorlet value as the Black pricer with the same volatility. -/
theorem claim_C7_shifted_black_zero_shift (env : FinEnv)
    (self : FinLiborCapFloor) (vd s e : FinDate) (v : ℚ)
    (hv : 0 < v) (hf : 0 < env.fwdRate s e self.dayCountType) :
    self.valueCapletFloorLet env vd s e
        (FinLiborModel.shiftedBlack v 0) =
      self.valueCapletFloorLet env vd s e (FinLiborModel.black v) := by
  unfold FinLiborCapFloor.valueCapletFloorLet
  dsimp only
  rw [if_neg (not_le.mpr hv), if_neg (not_lt.mpr hv.le),
    if_neg hv.ne', if_neg (not_le.mpr hf)]
  cases self.optionType <;> simp [sub_zero]

/-- C7 (witness): concrete instance of the shift-zero equivalence. -/
theorem claim_C7_witness :
    capW.valueCapletFloorLet envW 0 90 180
        (FinLiborModel.shiftedBlack (1 / 5) 0) =
      capW.valueCapletFloorLet envW 0 90 180
        (FinLiborModel.black (1 / 5)) :=
  claim_C7_shifted_black_zero_shift envW capW 0 90 180 (1 / 5)
    (by norm_num) (by norm_num [envW])

/-- C8 (counterexample): with strike exactly 0 the per-period parity
fails for the Black-priced periods.  `envW.normCdf` is the constant 1/2,
which satisfies the normal CDF's reflection property Φ(−x) = 1 − Φ(x);
period 2's caplet-minus-floorlet difference is
`notional·α·df·(f − 1e-10)` (the pricer substitutes 1e-10 for the zero
strike), not the claimed `notional·α·df·(f − 0)` (here
α = 1/4, df = 1, f = 7/200, notional = 10⁶). -/
theorem claim_C8_counterexample :
    ¬ ((({ capW with strikeRate := 0 } :
          FinLiborCapFloor).value envW 0
          (FinLiborModel.black (1 / 5))).1.capFloorLetValues.getD 2 0 -
        (({ floorW with strikeRate := 0 } :
          FinLiborCapFloor).value envW 0
          (FinLiborModel.black (1 / 5))).1.capFloorLetValues.getD 2 0 =
        1000000 * (1 / 4) * 1 * (7 / 200 - 0)) := by
  norm_num [FinLiborCapFloor.value, FinLiborCapFloor.valueLoop,
    FinLiborCapFloor.valueCapletFloorLet, envW, capW, floorW, sched,
    epsTiny, gDaysInYear]

/-- C8 (amended): per-period put-call parity holds for every strike
other than exactly 0 (at strike 0 the Black periods satisfy parity with
the substituted strike 1e-10 instead): for two successful `value` calls
differing only in option type, under the normal CDF's reflection
property, every per-period entry satisfies
`capletPV − floorletPV = notional·α·df·(f − k)` — the sentinel entry,
the intrinsic-only first period and the Black-priced later periods. -/
theorem claim_C8_parity_nonzero_strike (env : FinEnv)
    (cf : FinLiborCapFloor) (vd : FinDate) (v : ℚ)
    (hPhi : ∀ x, env.normCdf (-x) = 1 - env.normCdf x)
    (hk0 : cf.strikeRate ≠ 0)
    (hOkC : (({ cf with optionType := FinLiborCapFloorType.CAP } :
        FinLiborCapFloor).value env vd
        (FinLiborModel.black v)).2.isOk = true)
    (hOkF : (({ cf with optionType := FinLiborCapFloorType.FLOOR } :
        FinLiborCapFloor).value env vd
        (FinLiborModel.black v)).2.isOk = true) :
    ∀ i,
      (({ cf with optionType := FinLiborCapFloorType.CAP } :
          FinLiborCapFloor).value env vd
          (FinLiborModel.black v)).1.capFloorLetValues.getD i 0 -
        (({ cf with optionType := FinLiborCapFloorType.FLOOR } :
          FinLiborCapFloor).value env vd
          (FinLiborModel.black v)).1.capFloorLetValues.getD i 0 =
      cf.notional *
        (({ cf with optionType := FinLiborCapFloorType.CAP } :
          FinLiborCapFloor).value env vd
          (FinLiborModel.black v)).1.capFloorLetAlphas.getD i 0 *
        (({ cf with optionType := FinLiborCapFloorType.CAP } :
          FinLiborCapFloor).value env vd
          (FinLiborModel.black v)).1.capFloorLetDiscountFactors.getD i 0 *
        ((({ cf with optionType := FinLiborCapFloorType.CAP } :
          FinLiborCapFloor).value env vd
          (FinLiborModel.black v)).1.capFloorLetFwdRates.getD i 0 -
          cf.strikeRate) := by
  obtain ⟨h1C, h2C⟩ := value_ok_valid env _ vd _ hOkC
  obtain ⟨h1F, h2F⟩ := value_ok_valid env _ vd _ hOkF
  have heqC := value_eq_of_valid env
    { cf with optionType := FinLiborCapFloorType.CAP } vd
    (FinLiborModel.black v) h1C h2C
  have heqF := value_eq_of_valid env
    { cf with optionType := FinLiborCapFloorType.FLOOR } vd
    (FinLiborModel.black v) h1F h2F
  have hs : sched env
      { cf with optionType := FinLiborCapFloorType.FLOOR } =
      sched env { cf with optionType := FinLiborCapFloorType.CAP } := rfl
  rw [hs] at heqF
  rw [heqC] at hOkC
  rw [heqF] at hOkF
  rw [heqC, heqF]
  have hinv : parityInv
      (firstPeriodState env
        { cf with optionType := FinLiborCapFloorType.CAP } vd).strikeRate
      (firstPeriodState env
        { cf with optionType := FinLiborCapFloorType.CAP } vd).notional
      (firstPeriodState env
        { cf with optionType := FinLiborCapFloorType.CAP } vd)
      (firstPeriodState env
        { cf with optionType := FinLiborCapFloorType.FLOOR } vd) := by
    refine ⟨rfl, rfl, rfl, rfl, rfl, rfl, rfl, ?_⟩
    intro i
    match i with
    | 0 =>
        show (0 : ℚ) - 0 = cf.notional * 0 * 1 * (0 - cf.strikeRate)
        ring
    | 1 =>
        show firstLetValue env
            { cf with optionType := FinLiborCapFloorType.CAP } -
          firstLetValue env
            { cf with optionType := FinLiborCapFloorType.FLOOR } = _
        simp only [firstLetValue, firstDf, firstAlpha, firstFwd, sched]
        exact cap_floor_intrinsic_diff _ _ _ _ _
    | (n + 2) =>
        show (0 : ℚ) - 0 = cf.notional * 0 * 0 * (0 - cf.strikeRate)
        ring
  have hpar := valueLoop_parity env vd v hPhi
    (((sched env { cf with optionType := FinLiborCapFloorType.CAP }).drop
        1).zip
      ((sched env
        { cf with optionType := FinLiborCapFloorType.CAP }).drop 2))
    (firstPeriodState env
      { cf with optionType := FinLiborCapFloorType.CAP } vd)
    (firstPeriodState env
      { cf with optionType := FinLiborCapFloorType.FLOOR } vd)
    (firstLetValue env
      { cf with optionType := FinLiborCapFloorType.CAP })
    (firstLetValue env
      { cf with optionType := FinLiborCapFloorType.FLOOR })
    rfl rfl rfl rfl rfl hk0 hinv hOkC hOkF
  unfold parityInv at hpar
  exact hpar.2.2.2.2.2.2.2

/-- C8 (witness for the amended claim): concrete parity instance at
period 2 with strike 3%. -/
theorem claim_C8_witness :
    (({ capW with optionType := FinLiborCapFloorType.CAP } :
        FinLiborCapFloor).value envW 0
        (FinLiborModel.black (1 / 5))).1.capFloorLetValues.getD 2 0 -
      (({ capW with optionType := FinLiborCapFloorType.FLOOR } :
        FinLiborCapFloor).value envW 0
        (FinLiborModel.black (1 / 5))).1.capFloorLetValues.getD 2 0 =
    capW.notional *
      (({ capW with optionType := FinLiborCapFloorType.CAP } :
        FinLiborCapFloor).value envW 0
        (FinLiborModel.black (1 / 5))).1.capFloorLetAlphas.getD 2 0 *
      (({ capW with optionType := FinLiborCapFloorType.CAP } :
        FinLiborCapFloor).value envW 0
        (FinLiborModel.black
          (1 / 5))).1.capFloorLetDiscountFactors.getD 2 0 *
      ((({ capW with optionType := FinLiborCapFloorType.CAP } :
        FinLiborCapFloor).value envW 0
        (FinLiborModel.black (1 / 5))).1.capFloorLetFwdRates.getD 2 0 -
        capW.strikeRate) :=
  claim_C8_parity_nonzero_strike envW capW 0 (1 / 5)
    (fun x => by norm_num [envW]) (by norm_num [capW])
    (by norm_num [FinLiborCapFloor.value, FinLiborCapFloor.valueLoop,
      FinLiborCapFloor.valueCapletFloorLet, envW, capW, sched,
      Except.isOk, Except.toBool])
    (by norm_num [FinLiborCapFloor.value, FinLiborCapFloor.valueLoop,
      FinLiborCapFloor.valueCapletFloorLet, envW, capW, sched,
      Except.isOk, Except.toBool])
    2

end FinancePy
